import Mathlib

set_option maxRecDepth 100000

/-!
# Verification of the history-table generator core

Shallow embedding of the repository's core modules:

* `src/core/trigger_generator.py` — DDL synthesis (`PostgreSQLTriggerGenerator`,
  `TriggerGenerator._get_generator`),
* `src/core/database.py` — query execution/commit behaviour
  (`PostgreSQLDatabase.execute_query`, `BaseDatabase.transaction`,
  `BaseDatabase.get_current_user`, `DatabaseFactory.create_database`),
* `src/core/history_manager.py` — orchestration
  (`HistoryManager.apply_changes`, `rollback_changes`, `_create_history_table`,
  `_create_triggers`, `_log_change`),
* `src/models/database_models.py` — `HistoryTableDefinition.__post_init__`.

Python exceptions are modelled by `PyError`; fallible code returns `Except`.
Mutable state (driver connection, change ledger) is passed explicitly.
-/

/-- Python exception classes relevant to the embedded code.
`validationError` is the `ValidationError` class of `src/utils/validators.py`
(declared in the repository but never raised by the DDL-synthesis path). -/
inductive PyError where
  | indexError : PyError
  | valueError : String → PyError
  | databaseError : String → PyError
  | nameError : String → PyError
  | validationError : String → PyError
deriving DecidableEq

/-- One introspected column, as the dict rows produced by
`get_table_columns` and consumed by `generate_history_table_ddl`
(`column_name`, `data_type`, `is_nullable` with the information-schema
string encoding `"YES"`/`"NO"`). -/
structure Column where
  column_name : String
  data_type : String
  is_nullable : String
deriving DecidableEq

/-- The naming-configuration dict passed as `config` to the generators.
Each field models `config.get(key, default)`: `none` means the key is
absent and the default applies. -/
structure NamingConfig where
  history_suffix : Option String
  timestamp_column : Option String
  operation_column : Option String
  user_column : Option String
deriving DecidableEq

def NamingConfig.suffixVal (c : NamingConfig) : String :=
  c.history_suffix.getD "_hst"

def NamingConfig.tsCol (c : NamingConfig) : String :=
  c.timestamp_column.getD "history_timestamp"

def NamingConfig.opCol (c : NamingConfig) : String :=
  c.operation_column.getD "history_operation"

def NamingConfig.userCol (c : NamingConfig) : String :=
  c.user_column.getD "history_user"

/-- The default naming configuration: an empty `config` dict, every
`config.get` falls back to its default. -/
def default_config : NamingConfig := ⟨none, none, none, none⟩

/-- One original-column definition line of the history-table DDL
(trigger_generator.py lines 44-48). -/
def column_def (col : Column) : String :=
  let base := col.column_name ++ " " ++ col.data_type
  if col.is_nullable = "NO" then base ++ " NOT NULL" else base

/-- The `column_defs` list built in `generate_history_table_ddl`
(lines 43-53): every original column followed by the three audit columns,
appended unconditionally. -/
def history_column_defs (columns : List Column) (config : NamingConfig) : List String :=
  columns.map column_def ++
    [config.tsCol ++ " TIMESTAMP DEFAULT CURRENT_TIMESTAMP",
     config.opCol ++ " VARCHAR(10)",
     config.userCol ++ " VARCHAR(100)"]

/-- The column names carried by `history_column_defs`, in order. -/
def history_column_names (columns : List Column) (config : NamingConfig) : List String :=
  columns.map (fun c => c.column_name) ++ [config.tsCol, config.opCol, config.userCol]

/-- The PRIMARY KEY clause emitted at trigger_generator.py line 59:
`PRIMARY KEY ({columns[0]['column_name']}, {timestamp_column})` —
it uses only the FIRST introspected column. -/
def pk_clause_text (c0 : Column) (config : NamingConfig) : String :=
  "PRIMARY KEY (" ++ c0.column_name ++ ", " ++ config.tsCol ++ ")"

/-- `PostgreSQLTriggerGenerator.generate_history_table_ddl`
(trigger_generator.py lines 35-65).  On an empty column list the
subscript `columns[0]` raises `IndexError`; otherwise the function
returns the `.strip()`ped f-string template. -/
def generate_history_table_ddl (schema table_name : String)
    (columns : List Column) (config : NamingConfig) : Except PyError String :=
  let history_table := table_name ++ config.suffixVal
  let column_defs := history_column_defs columns config
  match columns with
  | [] => .error .indexError
  | c0 :: _ =>
    .ok ("CREATE TABLE IF NOT EXISTS " ++ schema ++ "." ++ history_table ++ " (\n    "
      ++ String.intercalate ",\n    " column_defs
      ++ ",\n    " ++ pk_clause_text c0 config
      ++ "\n);\n\nCOMMENT ON TABLE " ++ schema ++ "." ++ history_table
      ++ " IS 'History table for " ++ schema ++ "." ++ table_name ++ "';")

/-- Total extraction of the generated history-table DDL (empty string on
the `IndexError` path); used to name the generated statement inside
larger states. -/
def the_history_ddl (schema table_name : String)
    (columns : List Column) (config : NamingConfig) : String :=
  match generate_history_table_ddl schema table_name columns config with
  | .ok d => d
  | .error _ => ""

/-- `PostgreSQLTriggerGenerator.generate_trigger_ddl`
(trigger_generator.py lines 67-104): the plpgsql trigger function followed
by the `CREATE TRIGGER` statement, both `.strip()`ped.  The trailing
blanks after `OLD.*, ` etc. are present in the source template. -/
def generate_trigger_ddl (schema table_name : String) (config : NamingConfig) : List String :=
  let history_table := table_name ++ config.suffixVal
  let trigger_function :=
    "CREATE OR REPLACE FUNCTION " ++ schema ++ "." ++ table_name ++ "_history_trigger()\n"
    ++ "RETURNS TRIGGER AS $$\nBEGIN\n    IF (TG_OP = 'DELETE') THEN\n"
    ++ "        INSERT INTO " ++ schema ++ "." ++ history_table ++ "\n"
    ++ "        SELECT OLD.*, \n               CURRENT_TIMESTAMP, \n"
    ++ "               'DELETE', \n               CURRENT_USER;\n"
    ++ "        RETURN OLD;\n    ELSIF (TG_OP = 'UPDATE') THEN\n"
    ++ "        INSERT INTO " ++ schema ++ "." ++ history_table ++ "\n"
    ++ "        SELECT OLD.*, \n               CURRENT_TIMESTAMP, \n"
    ++ "               'UPDATE', \n               CURRENT_USER;\n"
    ++ "        RETURN NEW;\n    END IF;\n    RETURN NULL;\nEND;\n$$ LANGUAGE plpgsql;"
  let create_trigger :=
    "CREATE TRIGGER " ++ table_name ++ "_history_trigger\n"
    ++ "AFTER UPDATE OR DELETE ON " ++ schema ++ "." ++ table_name ++ "\n"
    ++ "FOR EACH ROW\n"
    ++ "EXECUTE FUNCTION " ++ schema ++ "." ++ table_name ++ "_history_trigger();"
  [trigger_function, create_trigger]

/-- Does `pat` head-match `l`? (helper for the substring test). -/
def leadMatch : List Char → List Char → Bool
  | [], _ => true
  | _ :: _, [] => false
  | a :: as, b :: bs => a == b && leadMatch as bs

def hasSubAux (pat : List Char) : List Char → Bool
  | [] => leadMatch pat []
  | c :: cs => leadMatch pat (c :: cs) || hasSubAux pat cs

/-- Executable substring test on strings. -/
def hasSub (s pat : String) : Bool := hasSubAux pat.data s.data

/-! ## Dialect resolution

`TriggerGenerator.__init__`/`_get_generator` (trigger_generator.py
lines 110-131) and `DatabaseFactory.create_database`
(database.py lines 592-613).
-/

/-- Python's `str.lower()` on the ASCII dialect tags involved, embedded
structurally (Lean's `String.toLower` is well-founded-recursive and so
not reducible by the kernel). -/
def py_lower (s : String) : String := String.mk (s.data.map Char.toLower)

/-- The one concrete synthesizer the `_generators` map can produce. -/
inductive GeneratorKind where
  | postgresqlGen : GeneratorKind
deriving DecidableEq

/-- The concrete adapters `DatabaseFactory` can produce. -/
inductive AdapterKind where
  | postgresqlDb : AdapterKind
  | mysqlDb : AdapterKind
deriving DecidableEq

/-- The `_generators` dict of `TriggerGenerator.__init__`:
`{'postgresql': PostgreSQLTriggerGenerator, 'mysql': None, 'sqlserver': None}`.
A missing key and a key stored as `None` are indistinguishable to
`_get_generator`'s `if not generator_class` test, so both map to `none`. -/
def generatorClassFor (db_type : String) : Option GeneratorKind :=
  if db_type = "postgresql" then some .postgresqlGen else none

/-- `TriggerGenerator._get_generator` (lines 123-131): lowers the
configured `db_type`, looks it up, and raises `ValueError` when no
generator class is found. -/
def getGenerator (cfg_db_type : String) : Except PyError GeneratorKind :=
  let db_type := py_lower cfg_db_type
  match generatorClassFor db_type with
  | some g => .ok g
  | none => .error (.valueError ("No trigger generator for database type: " ++ db_type))

/-- `DatabaseFactory.create_database` (database.py lines 595-612). -/
def create_database (cfg_db_type : String) : Except PyError AdapterKind :=
  let db_type := py_lower cfg_db_type
  if db_type = "postgresql" ∨ db_type = "postgres" then .ok .postgresqlDb
  else if db_type = "mysql" ∨ db_type = "mariadb" then .ok .mysqlDb
  else .error (.valueError ("Unsupported database type: " ++ db_type))

/-- The spec's `DialectRegistry.resolve`: a tag resolves only when BOTH the
adapter factory (`DatabaseFactory.create_database`) and the synthesizer
factory (`TriggerGenerator._get_generator`) succeed on it; the first
failure propagates. -/
def resolve_dialect (tag : String) : Except PyError (AdapterKind × GeneratorKind) :=
  match create_database tag with
  | .error e => .error e
  | .ok a =>
    match getGenerator tag with
    | .error e => .error e
    | .ok g => .ok (a, g)

/-! ## Connection and query execution

`PostgreSQLDatabase.execute_query` (database.py lines 185-223) with the
psycopg2 driver's implicit transaction: `cursor.execute` adds the
statement to the driver's open (pending) transaction; for non-SELECT
statements the method then calls `self.connection.commit()` —
*every successful DDL statement is committed immediately*; on an
execution error it calls `self.connection.rollback()` (discarding only
the pending statements) and raises `DatabaseError`.

Which statements fail is abstracted by an oracle `fails : String → Bool`.
All statements issued by the orchestration path are non-SELECT.
-/

/-- The driver connection: statements committed on the server, and
statements executed in the currently open driver transaction. -/
structure PGConn where
  committed : List String
  pending : List String
deriving DecidableEq

/-- `PostgreSQLDatabase.execute_query` on a non-SELECT statement:
returns the new connection state and `true` on success, `false` when the
statement raised (after the driver-level `rollback()`). -/
def execute_query (fails : String → Bool) (conn : PGConn) (q : String) : PGConn × Bool :=
  if fails q then (⟨conn.committed, []⟩, false)
  else (⟨conn.committed ++ conn.pending ++ [q], []⟩, true)

/-- Sequential execution of a statement list, stopping at the first
failure (the `for query in queries: self.database.execute_query(query)`
loop of `_create_triggers`). -/
def exec_queries (fails : String → Bool) (conn : PGConn) : List String → PGConn × Bool
  | [] => (conn, true)
  | q :: rest =>
    let r := execute_query fails conn q
    if r.2 then exec_queries fails r.1 rest else (r.1, false)

/-- `BaseDatabase.get_current_user` (database.py lines 110-117):
`SELECT CURRENT_USER` is issued; on any raise the except-branch returns
`'UNKNOWN'`; a falsy (empty) row set returns `'SYSTEM'`; otherwise
`result[0][0]` is returned — an indexing failure there is also caught by
the same `try` and yields `'UNKNOWN'`. -/
def get_current_user (result : Except PyError (List (List String))) : String :=
  match result with
  | .error _ => "UNKNOWN"
  | .ok [] => "SYSTEM"
  | .ok ([] :: _) => "UNKNOWN"
  | .ok ((cell :: _) :: _) => cell

/-! ## Orchestration: `HistoryManager` (history_manager.py) -/

/-- One entry of `self._changes_applied` as built by `_log_change`
(lines 205-217). -/
structure ChangeEntry where
  schema : String
  table : String
  action : String
  timestamp : String
  user : String
deriving DecidableEq

/-- Orchestrator-visible state: the driver connection and the in-session
change ledger `_changes_applied`. -/
structure MState where
  conn : PGConn
  ledger : List ChangeEntry
deriving DecidableEq

/-- `HistoryManager._log_change`: append one entry to the ledger. -/
def log_change (schema table action now user : String)
    (ledger : List ChangeEntry) : List ChangeEntry :=
  ledger ++ [⟨schema, table, action, now, user⟩]

/-- `HistoryManager._create_history_table` (lines 123-139): introspect the
columns, synthesize the history-table DDL (a raise there propagates),
execute it, and log the change only after the execution returned without
error. -/
def create_history_table (fails : String → Bool) (colsFn : String → List Column)
    (cfg : NamingConfig) (user now schema table : String) (s : MState) : MState × Bool :=
  match generate_history_table_ddl schema table (colsFn table) cfg with
  | .error _ => (s, false)
  | .ok q =>
    let r := execute_query fails s.conn q
    if r.2 then
      (⟨r.1, log_change schema table "CREATE_HISTORY_TABLE" now user s.ledger⟩, true)
    else (⟨r.1, s.ledger⟩, false)

/-- `HistoryManager._create_triggers` (lines 141-155): execute the two
trigger statements in order; log the change only after both executed
without error. -/
def create_triggers (fails : String → Bool) (cfg : NamingConfig)
    (user now schema table : String) (s : MState) : MState × Bool :=
  let r := exec_queries fails s.conn (generate_trigger_ddl schema table cfg)
  if r.2 then
    (⟨r.1, log_change schema table "CREATE_TRIGGERS" now user s.ledger⟩, true)
  else (⟨r.1, s.ledger⟩, false)

/-- The `for table_name in selected_tables` loop inside
`apply_changes`'s `with self.database.transaction():` block
(lines 72-75): history table first, then triggers, per table, stopping at
the first raised error. -/
def apply_tables (fails : String → Bool) (colsFn : String → List Column)
    (cfg : NamingConfig) (user now schema : String) :
    List String → MState → MState × Bool
  | [], s => (s, true)
  | t :: ts, s =>
    let r1 := create_history_table fails colsFn cfg user now schema t s
    if r1.2 then
      let r2 := create_triggers fails cfg user now schema t r1.1
      if r2.2 then apply_tables fails colsFn cfg user now schema ts r2.1
      else (r2.1, false)
    else (r1.1, false)

/-- `HistoryManager.apply_changes` (lines 44-85) after table selection:
* empty selection: report and return;
* declined confirmation: return;
* `backup_before_changes` set: `_create_backup` references the names
  `Progress`/`Panel` that history_manager.py never imports, so it raises
  `NameError` before any DDL runs and `apply_changes` fails;
* otherwise `with self.database.transaction():` — `begin_transaction`
  issues `BEGIN TRANSACTION` through `execute_query`, the loop body runs,
  then `commit_transaction` issues `COMMIT` on success while any raise
  triggers `rollback_transaction`'s `ROLLBACK` (database.py lines 77-108)
  and the error propagates.
Returns the final state and `true` iff the call returned without raising. -/
def apply_changes (fails : String → Bool) (colsFn : String → List Column)
    (cfg : NamingConfig) (backup confirm : Bool) (user now schema : String)
    (selected : List String) (s : MState) : MState × Bool :=
  if selected.isEmpty then (s, true)
  else if ¬ confirm then (s, true)
  else if backup then (s, false)
  else
    let rb := execute_query fails s.conn "BEGIN TRANSACTION"
    if rb.2 then
      let ra := apply_tables fails colsFn cfg user now schema selected ⟨rb.1, s.ledger⟩
      if ra.2 then
        let rc := execute_query fails ra.1.conn "COMMIT"
        if rc.2 then (⟨rc.1, ra.1.ledger⟩, true)
        else (⟨(execute_query fails rc.1 "ROLLBACK").1, ra.1.ledger⟩, false)
      else (⟨(execute_query fails ra.1.conn "ROLLBACK").1, ra.1.ledger⟩, false)
    else (⟨rb.1, s.ledger⟩, false)

/-- `HistoryManager.rollback_changes` (lines 87-121).  With an empty
ledger it only prints a message.  With a non-empty ledger it builds a
display table of the entries and, after confirmation, the
`# Execute rollback queries` branch is `pass` — no inverse DDL is ever
issued and no ledger entry is removed.  (In the source even the display
raises `NameError` — `Table` is not imported — which the `except` block
swallows; every path leaves the state unchanged and executes nothing.)
The second component is the list of statements the call executed. -/
def rollback_changes (confirm : Bool) (s : MState) : MState × List String :=
  if s.ledger.isEmpty then (s, [])
  else if confirm then (s, [])
  else (s, [])

/-- The DDL statements that a ledger entry stands for: the history-table
statement for `CREATE_HISTORY_TABLE`, the two trigger statements for
`CREATE_TRIGGERS`. -/
def entry_ddls (colsFn : String → List Column) (cfg : NamingConfig)
    (e : ChangeEntry) : List String :=
  if e.action = "CREATE_HISTORY_TABLE" then
    match generate_history_table_ddl e.schema e.table (colsFn e.table) cfg with
    | .ok d => [d]
    | .error _ => []
  else if e.action = "CREATE_TRIGGERS" then generate_trigger_ddl e.schema e.table cfg
  else []

/-- `HistoryTableDefinition.__post_init__`
(database_models.py lines 200-223), names only: the three audit-column
names are appended unless already present among the original column
names — the collision-skip policy. -/
def post_init_column_names (original : List String) (tsc opc usc : String) : List String :=
  original ++ ([tsc, opc, usc].filter (fun h => ¬ original.contains h))

/-- Modelled from the spec: the primary-key clause §3/§4.3 mandate —
"the full original primary-key column set plus the timestamp column";
the source never introspects the primary key, so this clause exists only
in the spec. -/
def spec_primary_key_clause (pk_columns : List String) (config : NamingConfig) : String :=
  "PRIMARY KEY (" ++ String.intercalate ", " (pk_columns ++ [config.tsCol]) ++ ")"

/-! ## Concrete inputs used by the claim theorems -/

/-- The §8 concrete scenario's column metadata: `orders(id INTEGER NOT
NULL, total NUMERIC(10,2))`. -/
def orders_columns : List Column :=
  [⟨"id", "INTEGER", "NO"⟩, ⟨"total", "NUMERIC(10,2)", "YES"⟩]

/-- A table whose first column collides with the timestamp audit column. -/
def colliding_columns : List Column := [⟨"history_timestamp", "TIMESTAMP", "YES"⟩]

/-- A table with the two-column primary key `(region, order_id)`. -/
def pk_demo_columns : List Column :=
  [⟨"region", "TEXT", "NO"⟩, ⟨"order_id", "INTEGER", "NO"⟩]

/-- Introspection result for the two-table batch demo: table `"a"` has
one column `x`, table `"b"` has one column `y`. -/
def demo_cols (t : String) : List Column :=
  if t = "a" then [⟨"x", "INTEGER", "NO"⟩] else [⟨"y", "INTEGER", "NO"⟩]

/-- Failure oracle for the batch demo: exactly the history-table DDL of
table `"b"` raises when executed; everything else succeeds. -/
def demo_fails (q : String) : Bool :=
  q = the_history_ddl "public" "b" (demo_cols "b") default_config

/-- Fresh session: nothing committed, nothing pending, empty ledger. -/
def init_state : MState := ⟨⟨[], []⟩, []⟩

/-- Final state of the failing two-table batch demo:
`apply_changes` on tables `["a", "b"]` where table `b`'s history DDL
raises (backups off, confirmation given). -/
def demo_apply : MState × Bool :=
  apply_changes demo_fails demo_cols default_config false true
    "dba" "2024-01-01T00:00:00" "public" ["a", "b"] init_state

/-- Is the outcome a raised `ValidationError`? -/
def isValidationErr (r : Except PyError String) : Bool :=
  match r with
  | .error (.validationError _) => true
  | _ => false

/-! ## Theorems -/

/-- C7: the §8 concrete scenario.  For schema `public`, table `orders`
with columns `id INTEGER NOT NULL` and `total NUMERIC(10,2)`, suffix
`_hst` and the default naming configuration, `generate_history_table_ddl`
yields a `CREATE TABLE IF NOT EXISTS public.orders_hst` statement
containing `id INTEGER NOT NULL`, `total NUMERIC(10,2)`,
`history_timestamp TIMESTAMP DEFAULT CURRENT_TIMESTAMP`,
`history_operation VARCHAR(10)`, `history_user VARCHAR(100)`, and a
primary key over the original key column (`id`) plus `history_timestamp`. -/
theorem orders_scenario_ddl :
    generate_history_table_ddl "public" "orders" orders_columns default_config =
      .ok ("CREATE TABLE IF NOT EXISTS public.orders_hst (\n    id INTEGER NOT NULL,\n    total NUMERIC(10,2),\n    history_timestamp TIMESTAMP DEFAULT CURRENT_TIMESTAMP,\n    history_operation VARCHAR(10),\n    history_user VARCHAR(100),\n    PRIMARY KEY (id, history_timestamp)\n);\n\nCOMMENT ON TABLE public.orders_hst IS 'History table for public.orders';") ∧
    hasSub (the_history_ddl "public" "orders" orders_columns default_config)
      "CREATE TABLE IF NOT EXISTS public.orders_hst" = true ∧
    hasSub (the_history_ddl "public" "orders" orders_columns default_config)
      "id INTEGER NOT NULL" = true ∧
    hasSub (the_history_ddl "public" "orders" orders_columns default_config)
      "total NUMERIC(10,2)" = true ∧
    hasSub (the_history_ddl "public" "orders" orders_columns default_config)
      "history_timestamp TIMESTAMP DEFAULT CURRENT_TIMESTAMP" = true ∧
    hasSub (the_history_ddl "public" "orders" orders_columns default_config)
      "history_operation VARCHAR(10)" = true ∧
    hasSub (the_history_ddl "public" "orders" orders_columns default_config)
      "history_user VARCHAR(100)" = true ∧
    hasSub (the_history_ddl "public" "orders" orders_columns default_config)
      "PRIMARY KEY (id, history_timestamp)" = true := by
  refine ⟨rfl, rfl, rfl, rfl, rfl, rfl, rfl, rfl⟩

/-- C5: determinism of DDL synthesis.  Both generators are functions of
`(schema, table, columns, namingConfig)` alone — the synthesis path reads
no clock, randomness or hidden state — so equal inputs give byte-identical
DDL text on every call. -/
theorem ddl_synthesis_deterministic (s₁ s₂ t₁ t₂ : String)
    (c₁ c₂ : List Column) (n₁ n₂ : NamingConfig)
    (hs : s₁ = s₂) (ht : t₁ = t₂) (hc : c₁ = c₂) (hn : n₁ = n₂) :
    generate_history_table_ddl s₁ t₁ c₁ n₁ = generate_history_table_ddl s₂ t₂ c₂ n₂ ∧
    generate_trigger_ddl s₁ t₁ n₁ = generate_trigger_ddl s₂ t₂ n₂ := by
  subst hs; subst ht; subst hc; subst hn
  exact ⟨rfl, rfl⟩

/-- Witness for C5 at the concrete `orders` input. -/
theorem ddl_synthesis_deterministic_witness :
    ("public" : String) = "public" ∧
    (generate_history_table_ddl "public" "orders" orders_columns default_config =
        generate_history_table_ddl "public" "orders" orders_columns default_config ∧
      generate_trigger_ddl "public" "orders" default_config =
        generate_trigger_ddl "public" "orders" default_config) :=
  ⟨rfl, ddl_synthesis_deterministic "public" "public" "orders" "orders"
    orders_columns orders_columns default_config default_config rfl rfl rfl rfl⟩

/-- C9 counterexample: a table with zero columns makes
`generate_history_table_ddl` raise the unclassified `IndexError` from
`columns[0]`, not a `ValidationError` — the claim as stated is false. -/
theorem zero_columns_not_validation_error :
    generate_history_table_ddl "public" "empty_table" [] default_config =
      .error .indexError ∧
    isValidationErr (generate_history_table_ddl "public" "empty_table" [] default_config) =
      false := ⟨rfl, rfl⟩

/-- C9 amended: for every table whose introspected metadata has zero
columns, synthesizing the history-table DDL fails with the unclassified
`IndexError` raised by the `columns[0]` subscript (no validation is
performed and the repository's `ValidationError` class is never raised). -/
theorem zero_columns_index_error (schema table : String) (cfg : NamingConfig) :
    generate_history_table_ddl schema table [] cfg = .error .indexError := rfl

/-- C2 (code bug): `rollback_changes` executes no inverse DDL and removes
no ledger entry — on every ledger and every confirmation answer it leaves
the state unchanged and issues zero statements, including on a non-empty
one-entry ledger with confirmation given.  The reversal execution the
spec mandates is the `pass` statement at history_manager.py line 117. -/
theorem rollback_changes_executes_nothing :
    (∀ confirm s, rollback_changes confirm s = (s, [])) ∧
    rollback_changes true
      ⟨⟨[], []⟩, [⟨"public", "a", "CREATE_HISTORY_TABLE", "2024-01-01T00:00:00", "dba"⟩]⟩ =
      (⟨⟨[], []⟩, [⟨"public", "a", "CREATE_HISTORY_TABLE", "2024-01-01T00:00:00", "dba"⟩]⟩, []) := by
  constructor
  · intro c s
    unfold rollback_changes
    split
    · rfl
    · split <;> rfl
  · rfl

/-- C3 (code bug): with an original column named `history_timestamp`,
`generate_history_table_ddl` appends the timestamp audit column anyway:
the name occurs twice in the emitted column definitions (and in the
PRIMARY KEY clause), which is invalid `CREATE TABLE` DDL — while the
repository's own `HistoryTableDefinition.__post_init__` implements the
collision-skip policy the spec documents. -/
theorem colliding_audit_column_duplicated :
    (history_column_names colliding_columns default_config).count "history_timestamp" = 2 ∧
    generate_history_table_ddl "public" "events" colliding_columns default_config =
      .ok ("CREATE TABLE IF NOT EXISTS public.events_hst (\n    history_timestamp TIMESTAMP,\n    history_timestamp TIMESTAMP DEFAULT CURRENT_TIMESTAMP,\n    history_operation VARCHAR(10),\n    history_user VARCHAR(100),\n    PRIMARY KEY (history_timestamp, history_timestamp)\n);\n\nCOMMENT ON TABLE public.events_hst IS 'History table for public.events';") ∧
    post_init_column_names ["history_timestamp"]
        "history_timestamp" "history_operation" "history_user" =
      ["history_timestamp", "history_operation", "history_user"] := by
  refine ⟨by decide, rfl, by decide⟩

/-- C4 (code bug): the PRIMARY KEY clause uses only the first
introspected column plus the timestamp column.  For a table with the
two-column primary key `(region, order_id)` the generated clause is
`PRIMARY KEY (region, history_timestamp)` — `order_id` is dropped — and
differs from the spec-mandated full-key clause. -/
theorem pk_clause_first_column_only :
    pk_clause_text ⟨"region", "TEXT", "NO"⟩ default_config =
      "PRIMARY KEY (region, history_timestamp)" ∧
    spec_primary_key_clause ["region", "order_id"] default_config =
      "PRIMARY KEY (region, order_id, history_timestamp)" ∧
    hasSub (the_history_ddl "public" "sales" pk_demo_columns default_config)
      "PRIMARY KEY (region, history_timestamp)" = true ∧
    hasSub (the_history_ddl "public" "sales" pk_demo_columns default_config)
      "PRIMARY KEY (region, order_id, history_timestamp)" = false := by
  refine ⟨rfl, rfl, rfl, rfl⟩

/-- C10: `get_current_user` is total and never propagates an error: a
raised query yields `'UNKNOWN'`, an empty row set yields `'SYSTEM'`, and
a non-empty row set yields the first cell of the first row (an indexing
failure inside the `try` is also caught as `'UNKNOWN'`), so the result is
always one of these defined strings. -/
theorem get_current_user_branches (r : Except PyError (List (List String))) :
    (∀ e, r = .error e → get_current_user r = "UNKNOWN") ∧
    (r = .ok [] → get_current_user r = "SYSTEM") ∧
    (∀ cell row rest, r = .ok ((cell :: row) :: rest) → get_current_user r = cell) ∧
    (get_current_user r = "UNKNOWN" ∨ get_current_user r = "SYSTEM" ∨
      ∃ cell row rest, r = .ok ((cell :: row) :: rest) ∧ get_current_user r = cell) := by
  refine ⟨?_, ?_, ?_, ?_⟩
  · intro e he; subst he; rfl
  · intro h; subst h; rfl
  · intro cell row rest h; subst h; rfl
  · match r with
    | .error e => exact .inl rfl
    | .ok [] => exact .inr (.inl rfl)
    | .ok ([] :: rest) => exact .inl rfl
    | .ok ((cell :: row) :: rest) => exact .inr (.inr ⟨cell, row, rest, rfl, rfl⟩)

/-- Witness for C10: a one-row result whose first cell is `alice`. -/
theorem get_current_user_branches_witness :
    (Except.ok [["alice"]] : Except PyError (List (List String))) = .ok [["alice"]] ∧
    get_current_user (.ok [["alice"]]) = "alice" :=
  ⟨rfl, (get_current_user_branches (.ok [["alice"]])).2.2.1 "alice" [] [] rfl⟩

/-- C8: dialect isolation.  (1) Every tag other than `postgresql` (after
lowering) fails to resolve, with the `ValueError` that the spec's
taxonomy names `UnsupportedDialect`; resolution is a pure in-memory map
lookup, so no I/O happens.  (2) No partial match: `mysql` has an adapter
in `DatabaseFactory` but its `_generators` slot is `None`, and the pair
resolution still fails.  (3) A tag resolves only when BOTH factories
succeed on it. -/
theorem dialect_isolation :
    (∀ tag : String, py_lower tag ≠ "postgresql" →
      ∃ m, resolve_dialect tag = .error (.valueError m)) ∧
    (create_database "mysql" = .ok .mysqlDb ∧
      resolve_dialect "mysql" =
        .error (.valueError "No trigger generator for database type: mysql")) ∧
    (∀ tag p, resolve_dialect tag = .ok p →
      create_database tag = .ok p.1 ∧ getGenerator tag = .ok p.2) := by
  refine ⟨?_, ⟨rfl, rfl⟩, ?_⟩
  · intro tag h
    have hg : getGenerator tag =
        .error (.valueError ("No trigger generator for database type: " ++ py_lower tag)) := by
      unfold getGenerator generatorClassFor
      simp [h]
    by_cases h1 : py_lower tag = "postgresql" ∨ py_lower tag = "postgres"
    · have hc : create_database tag = .ok .postgresqlDb := by
        unfold create_database
        rw [if_pos h1]
      refine ⟨"No trigger generator for database type: " ++ py_lower tag, ?_⟩
      unfold resolve_dialect
      rw [hc, hg]
    · by_cases h2 : py_lower tag = "mysql" ∨ py_lower tag = "mariadb"
      · have hc : create_database tag = .ok .mysqlDb := by
          unfold create_database
          rw [if_neg h1, if_pos h2]
        refine ⟨"No trigger generator for database type: " ++ py_lower tag, ?_⟩
        unfold resolve_dialect
        rw [hc, hg]
      · have hc : create_database tag =
            .error (.valueError ("Unsupported database type: " ++ py_lower tag)) := by
          unfold create_database
          rw [if_neg h1, if_neg h2]
        refine ⟨"Unsupported database type: " ++ py_lower tag, ?_⟩
        unfold resolve_dialect
        rw [hc]
  · intro tag p h
    unfold resolve_dialect at h
    cases hc : create_database tag with
    | error e => rw [hc] at h; simp at h
    | ok a =>
      rw [hc] at h
      cases hg : getGenerator tag with
      | error e => rw [hg] at h; simp at h
      | ok g =>
        rw [hg] at h
        simp only [Except.ok.injEq] at h
        subst h
        exact ⟨rfl, rfl⟩

/-- Witness for C8 at the unregistered tag `oracle`. -/
theorem dialect_isolation_witness :
    py_lower "oracle" ≠ "postgresql" ∧
    ∃ m, resolve_dialect "oracle" = .error (.valueError m) :=
  ⟨by decide, dialect_isolation.1 "oracle" (by decide)⟩

/-- `execute_query` only ever appends to the committed statement list,
and a successful call leaves the executed statement committed
(the unconditional `self.connection.commit()` of database.py line 209). -/
theorem execute_query_spec (fails : String → Bool) (conn : PGConn) (q : String) :
    ∃ ext, (execute_query fails conn q).1.committed = conn.committed ++ ext ∧
      ((execute_query fails conn q).2 = true →
        q ∈ (execute_query fails conn q).1.committed) := by
  unfold execute_query
  by_cases h : fails q
  · refine ⟨[], ?_, ?_⟩ <;> simp [h]
  · refine ⟨conn.pending ++ [q], ?_, ?_⟩ <;> simp [h]

/-- `exec_queries` only appends to the committed list; if the whole batch
succeeded, every statement of the batch is committed. -/
theorem exec_queries_spec (fails : String → Bool) :
    ∀ (qs : List String) (conn : PGConn),
      ∃ ext, (exec_queries fails conn qs).1.committed = conn.committed ++ ext ∧
        ((exec_queries fails conn qs).2 = true →
          ∀ q ∈ qs, q ∈ (exec_queries fails conn qs).1.committed) := by
  intro qs
  induction qs with
  | nil =>
    intro conn
    refine ⟨[], ?_, ?_⟩ <;> simp [exec_queries]
  | cons q rest ih =>
    intro conn
    obtain ⟨e1, hc1, hm1⟩ := execute_query_spec fails conn q
    by_cases hb : (execute_query fails conn q).2 = true
    · obtain ⟨e2, hc2, hm2⟩ := ih (execute_query fails conn q).1
      refine ⟨e1 ++ e2, ?_, ?_⟩
      · simp only [exec_queries, hb, if_true]
        rw [hc2, hc1, List.append_assoc]
      · simp only [exec_queries, hb, if_true]
        intro hall q' hq'
        rcases List.mem_cons.mp hq' with hq' | hq'
        · subst hq'
          rw [hc2]
          exact List.mem_append_left _ (hm1 hb)
        · exact hm2 hall q' hq'
    · refine ⟨e1, ?_, ?_⟩
      · simp only [exec_queries, hb, if_false]
        exact hc1
      · simp only [exec_queries, hb, if_false]
        simp [Bool.not_eq_true] at hb
        simp [hb]

/-- `entry_ddls` on a `CREATE_HISTORY_TABLE` entry. -/
theorem entry_ddls_history (colsFn : String → List Column) (cfg : NamingConfig)
    (schema t now user : String) :
    entry_ddls colsFn cfg ⟨schema, t, "CREATE_HISTORY_TABLE", now, user⟩ =
      (match generate_history_table_ddl schema t (colsFn t) cfg with
        | .ok d => [d]
        | .error _ => []) := by
  simp [entry_ddls]

/-- `entry_ddls` on a `CREATE_TRIGGERS` entry. -/
theorem entry_ddls_triggers (colsFn : String → List Column) (cfg : NamingConfig)
    (schema t now user : String) :
    entry_ddls colsFn cfg ⟨schema, t, "CREATE_TRIGGERS", now, user⟩ =
      generate_trigger_ddl schema t cfg := by
  simp [entry_ddls]

/-- `_create_history_table`: the committed list only grows, the ledger
grows by at most the one entry logged after its DDL executed without
error, and that entry's statement is committed. -/
theorem create_history_table_spec (fails : String → Bool) (colsFn : String → List Column)
    (cfg : NamingConfig) (user now schema t : String) (s : MState) :
    ∃ ext tail,
      (create_history_table fails colsFn cfg user now schema t s).1.conn.committed =
        s.conn.committed ++ ext ∧
      (create_history_table fails colsFn cfg user now schema t s).1.ledger =
        s.ledger ++ tail ∧
      ∀ e ∈ tail, ∀ q ∈ entry_ddls colsFn cfg e,
        q ∈ (create_history_table fails colsFn cfg user now schema t s).1.conn.committed := by
  unfold create_history_table
  cases hg : generate_history_table_ddl schema t (colsFn t) cfg with
  | error err => refine ⟨[], [], by simp, by simp, by simp⟩
  | ok d =>
    obtain ⟨e1, hc1, hm1⟩ := execute_query_spec fails s.conn d
    by_cases hb : (execute_query fails s.conn d).2 = true
    · refine ⟨e1, [⟨schema, t, "CREATE_HISTORY_TABLE", now, user⟩], ?_, ?_, ?_⟩
      · simp only [hb, if_true]
        exact hc1
      · simp only [hb, if_true]
        simp [log_change]
      · intro e he q hq
        simp only [List.mem_singleton] at he
        subst he
        rw [entry_ddls_history, hg] at hq
        simp only [List.mem_singleton] at hq
        subst hq
        simp only [hb, if_true]
        exact hm1 hb
    · refine ⟨e1, [], ?_, ?_, ?_⟩
      · simp only [hb, if_false]
        exact hc1
      · simp only [hb, if_false]
        simp
      · simp

/-- `_create_triggers`: same shape as `create_history_table_spec`, with
both trigger statements committed when the entry was logged. -/
theorem create_triggers_spec (fails : String → Bool) (colsFn : String → List Column)
    (cfg : NamingConfig) (user now schema t : String) (s : MState) :
    ∃ ext tail,
      (create_triggers fails cfg user now schema t s).1.conn.committed =
        s.conn.committed ++ ext ∧
      (create_triggers fails cfg user now schema t s).1.ledger =
        s.ledger ++ tail ∧
      ∀ e ∈ tail, ∀ q ∈ entry_ddls colsFn cfg e,
        q ∈ (create_triggers fails cfg user now schema t s).1.conn.committed := by
  unfold create_triggers
  obtain ⟨e1, hc1, hm1⟩ :=
    exec_queries_spec fails (generate_trigger_ddl schema t cfg) s.conn
  by_cases hb : (exec_queries fails s.conn (generate_trigger_ddl schema t cfg)).2 = true
  · refine ⟨e1, [⟨schema, t, "CREATE_TRIGGERS", now, user⟩], ?_, ?_, ?_⟩
    · simp only [hb, if_true]
      exact hc1
    · simp only [hb, if_true]
      simp [log_change]
    · intro e he q hq
      simp only [List.mem_singleton] at he
      subst he
      rw [entry_ddls_triggers] at hq
      simp only [hb, if_true]
      exact hm1 hb q hq
  · refine ⟨e1, [], ?_, ?_, ?_⟩
    · simp only [hb, if_false]
      exact hc1
    · simp only [hb, if_false]
      simp
    · simp

/-- The per-batch loop: across all tables the committed list only grows,
the ledger only grows, and every ledger entry appended during the loop
has all of its DDL statements committed. -/
theorem apply_tables_spec (fails : String → Bool) (colsFn : String → List Column)
    (cfg : NamingConfig) (user now schema : String) :
    ∀ (tables : List String) (s : MState),
      ∃ ext tail,
        (apply_tables fails colsFn cfg user now schema tables s).1.conn.committed =
          s.conn.committed ++ ext ∧
        (apply_tables fails colsFn cfg user now schema tables s).1.ledger =
          s.ledger ++ tail ∧
        ∀ e ∈ tail, ∀ q ∈ entry_ddls colsFn cfg e,
          q ∈ (apply_tables fails colsFn cfg user now schema tables s).1.conn.committed := by
  intro tables
  induction tables with
  | nil =>
    intro s
    refine ⟨[], [], by simp [apply_tables], by simp [apply_tables], by simp [apply_tables]⟩
  | cons t ts ih =>
    intro s
    obtain ⟨e1, l1, hc1, hl1, hm1⟩ := create_history_table_spec fails colsFn cfg user now schema t s
    by_cases h1 : (create_history_table fails colsFn cfg user now schema t s).2 = true
    · obtain ⟨e2, l2, hc2, hl2, hm2⟩ :=
        create_triggers_spec fails colsFn cfg user now schema t
          (create_history_table fails colsFn cfg user now schema t s).1
      by_cases h2 : (create_triggers fails cfg user now schema t
          (create_history_table fails colsFn cfg user now schema t s).1).2 = true
      · obtain ⟨e3, l3, hc3, hl3, hm3⟩ :=
          ih (create_triggers fails cfg user now schema t
            (create_history_table fails colsFn cfg user now schema t s).1).1
        refine ⟨e1 ++ (e2 ++ e3), l1 ++ (l2 ++ l3), ?_, ?_, ?_⟩
        · simp only [apply_tables, h1, h2, if_true]
          rw [hc3, hc2, hc1]
          simp [List.append_assoc]
        · simp only [apply_tables, h1, h2, if_true]
          rw [hl3, hl2, hl1]
          simp [List.append_assoc]
        · simp only [apply_tables, h1, h2, if_true]
          intro e he q hq
          rcases List.mem_append.mp he with he | he
          · have hq1 := hm1 e he q hq
            rw [hc3, hc2]
            exact List.mem_append_left _ (List.mem_append_left _ hq1)
          · rcases List.mem_append.mp he with he | he
            · have hq2 := hm2 e he q hq
              rw [hc3]
              exact List.mem_append_left _ hq2
            · exact hm3 e he q hq
      · refine ⟨e1 ++ e2, l1 ++ l2, ?_, ?_, ?_⟩
        · simp only [apply_tables, h1, h2, Bool.false_eq_true, if_true, if_false]
          rw [hc2, hc1]
          simp [List.append_assoc]
        · simp only [apply_tables, h1, h2, Bool.false_eq_true, if_true, if_false]
          rw [hl2, hl1]
          simp [List.append_assoc]
        · simp only [apply_tables, h1, h2, Bool.false_eq_true, if_true, if_false]
          intro e he q hq
          rcases List.mem_append.mp he with he | he
          · have hq1 := hm1 e he q hq
            rw [hc2]
            exact List.mem_append_left _ hq1
          · exact hm2 e he q hq
    · refine ⟨e1, l1, ?_, ?_, ?_⟩
      · simp only [apply_tables, h1, if_false]
        exact hc1
      · simp only [apply_tables, h1, if_false]
        exact hl1
      · simp only [apply_tables, h1, if_false]
        exact hm1

/-- C6 amended: an `apply` call (confirmation given, backups off) only
ever APPENDS to the change ledger — after a failed call the prior ledger
is still a prefix and the entries appended for the tables processed
before the failure remain — and every appended entry corresponds to DDL
the adapter confirmed executed without error (each of its statements is
in the committed set of the final connection state). -/
theorem apply_changes_ledger_append_only (fails : String → Bool)
    (colsFn : String → List Column) (cfg : NamingConfig)
    (user now schema : String) (selected : List String) (s : MState) :
    ∃ tail,
      (apply_changes fails colsFn cfg false true user now schema selected s).1.ledger =
        s.ledger ++ tail ∧
      ∀ e ∈ tail, ∀ q ∈ entry_ddls colsFn cfg e,
        q ∈ (apply_changes fails colsFn cfg false true user now schema selected s).1.conn.committed := by
  unfold apply_changes
  by_cases hsel : selected.isEmpty = true
  · refine ⟨[], ?_, ?_⟩ <;> simp [hsel]
  · by_cases hB : (execute_query fails s.conn "BEGIN TRANSACTION").2 = true
    · obtain ⟨eT, lT, hcT, hlT, hmT⟩ :=
        apply_tables_spec fails colsFn cfg user now schema selected
          ⟨(execute_query fails s.conn "BEGIN TRANSACTION").1, s.ledger⟩
      by_cases hA : (apply_tables fails colsFn cfg user now schema selected
          ⟨(execute_query fails s.conn "BEGIN TRANSACTION").1, s.ledger⟩).2 = true
      · by_cases hC : (execute_query fails
            (apply_tables fails colsFn cfg user now schema selected
              ⟨(execute_query fails s.conn "BEGIN TRANSACTION").1, s.ledger⟩).1.conn
            "COMMIT").2 = true
        · refine ⟨lT, ?_, ?_⟩
          · simp only [hsel, hB, hA, hC, Bool.false_eq_true, if_true, if_false,
              not_true, ite_false, ite_true]
            simpa using hlT
          · simp only [hsel, hB, hA, hC, Bool.false_eq_true, if_true, if_false,
              not_true, ite_false, ite_true]
            intro e he q hq
            obtain ⟨eC, hcC, _⟩ := execute_query_spec fails
              (apply_tables fails colsFn cfg user now schema selected
                ⟨(execute_query fails s.conn "BEGIN TRANSACTION").1, s.ledger⟩).1.conn "COMMIT"
            rw [hcC]
            exact List.mem_append_left _ (hmT e he q hq)
        · refine ⟨lT, ?_, ?_⟩
          · simp only [hsel, hB, hA, hC, Bool.false_eq_true, if_true, if_false,
              not_true, ite_false, ite_true]
            simpa using hlT
          · simp only [hsel, hB, hA, hC, Bool.false_eq_true, if_true, if_false,
              not_true, ite_false, ite_true]
            intro e he q hq
            obtain ⟨eC, hcC, _⟩ := execute_query_spec fails
              (apply_tables fails colsFn cfg user now schema selected
                ⟨(execute_query fails s.conn "BEGIN TRANSACTION").1, s.ledger⟩).1.conn "COMMIT"
            obtain ⟨eR, hcR, _⟩ := execute_query_spec fails
              (execute_query fails
                (apply_tables fails colsFn cfg user now schema selected
                  ⟨(execute_query fails s.conn "BEGIN TRANSACTION").1, s.ledger⟩).1.conn
                "COMMIT").1 "ROLLBACK"
            rw [hcR, hcC]
            exact List.mem_append_left _ (List.mem_append_left _ (hmT e he q hq))
      · refine ⟨lT, ?_, ?_⟩
        · simp only [hsel, hB, hA, Bool.false_eq_true, if_true, if_false,
            not_true, ite_false, ite_true]
          simpa using hlT
        · simp only [hsel, hB, hA, Bool.false_eq_true, if_true, if_false,
            not_true, ite_false, ite_true]
          intro e he q hq
          obtain ⟨eR, hcR, _⟩ := execute_query_spec fails
            (apply_tables fails colsFn cfg user now schema selected
              ⟨(execute_query fails s.conn "BEGIN TRANSACTION").1, s.ledger⟩).1.conn "ROLLBACK"
          rw [hcR]
          exact List.mem_append_left _ (hmT e he q hq)
    · refine ⟨[], ?_, ?_⟩ <;>
        simp [hsel, hB]

/-- Witness for the C6 amended theorem at the concrete two-table batch
whose second table fails. -/
theorem apply_changes_ledger_append_only_witness :
    ∃ tail,
      (apply_changes demo_fails demo_cols default_config false true
          "dba" "2024-01-01T00:00:00" "public" ["a", "b"] init_state).1.ledger =
        init_state.ledger ++ tail ∧
      ∀ e ∈ tail, ∀ q ∈ entry_ddls demo_cols default_config e,
        q ∈ (apply_changes demo_fails demo_cols default_config false true
            "dba" "2024-01-01T00:00:00" "public" ["a", "b"] init_state).1.conn.committed :=
  apply_changes_ledger_append_only demo_fails demo_cols default_config
    "dba" "2024-01-01T00:00:00" "public" ["a", "b"] init_state

/-- C6 counterexample: in the two-table batch where table `b`'s history
DDL fails, the apply call fails, yet afterwards the ledger is NOT the
(empty) ledger it was before the call — the two entries logged for
table `a` remain. -/
theorem failed_apply_ledger_not_restored :
    demo_apply.2 = false ∧
    init_state.ledger = [] ∧
    demo_apply.1.ledger =
      [⟨"public", "a", "CREATE_HISTORY_TABLE", "2024-01-01T00:00:00", "dba"⟩,
       ⟨"public", "a", "CREATE_TRIGGERS", "2024-01-01T00:00:00", "dba"⟩] ∧
    demo_apply.1.ledger ≠ init_state.ledger := by
  refine ⟨rfl, rfl, rfl, by decide⟩

/-- C1 (code bug): in the two-table batch where table `b`'s history DDL
fails inside the batch transaction, the apply call fails — but table
`a`'s history-table DDL and both of its trigger statements remain
committed, because `execute_query` commits after every statement and the
final `ROLLBACK` has nothing left to undo.  The batch is not atomic. -/
theorem apply_changes_partial_batch_committed :
    demo_apply.2 = false ∧
    demo_fails (the_history_ddl "public" "b" (demo_cols "b") default_config) = true ∧
    demo_apply.1.conn.committed.contains
      (the_history_ddl "public" "a" (demo_cols "a") default_config) = true ∧
    (generate_trigger_ddl "public" "a" default_config).all
      (fun q => demo_apply.1.conn.committed.contains q) = true := by
  refine ⟨rfl, rfl, rfl, rfl⟩
